import Mathlib

/-!
Verification development for the NASA POWER agriculture client
(`src/nasa-power-client.ts`, `src/index.ts`).

The TypeScript source is shallowly embedded here:
* JS numbers are modelled as rationals (`ℚ`), keeping comparisons and the
  arithmetic of the index formulas exact.
* A JS object used as a map is modelled as an association list in insertion
  order; `Object.keys` is modelled with the ECMAScript own-property-key
  ordering (integer-index keys first, ascending, then the remaining string
  keys in insertion order).
* `undefined`-able values are `Option ℚ`; fallible operations return
  `Except String`.
-/

/-! ### JS object key model -/

/-- Numeric value of a digit character (only meaningful for `'0'`–`'9'`). -/
def digitVal (c : Char) : Nat := c.toNat - 48

/-- Whether a character is a decimal digit (`[0-9]`, as matched by `\d`). -/
def isDigitChar (c : Char) : Bool := 48 ≤ c.toNat && c.toNat ≤ 57

/-- Base-10 value of a list of digit characters. -/
def parseNat (cs : List Char) : Nat := cs.foldl (fun n c => n * 10 + digitVal c) 0

/-- Numeric value of a string key, `0` if it has no digits. -/
def jsKeyNat (s : String) : Nat := parseNat s.data

/-- ECMAScript "array index" property keys: the canonical decimal
representation (no leading zero except `"0"` itself) of an integer below
`2^32 - 1`.  `Object.keys` lists these keys first, in ascending numeric
order, before all other string keys. -/
def isArrayIndex (s : String) : Bool :=
  match s.data with
  | [] => false
  | c :: cs =>
    (c :: cs).all isDigitChar && (cs.isEmpty || c != '0') &&
      parseNat (c :: cs) < 4294967295

/-- Ordering of integer-index keys by numeric value. -/
def keyLe (a b : String) : Prop := jsKeyNat a ≤ jsKeyNat b

instance : DecidableRel keyLe :=
  fun a b => inferInstanceAs (Decidable (jsKeyNat a ≤ jsKeyNat b))

instance : IsTotal String keyLe := ⟨fun _ _ => Nat.le_total _ _⟩

instance : IsTrans String keyLe := ⟨fun _ _ _ => Nat.le_trans⟩

/-- `Object.keys` of a JS object whose own keys, in insertion order, are
`ks`: integer-index keys ascending first, then the rest in insertion
order. -/
def objectKeys (ks : List String) : List String :=
  List.insertionSort keyLe (ks.filter isArrayIndex) ++
    ks.filter (fun k => !isArrayIndex k)

/-! ### Raw API response model

`properties.parameter` of a NASA POWER response maps a parameter code to a
date→value object (the `units`/`longname` entries of that inner object are
also just string keys).  Values present in the JSON are always numbers, so
`parameters[code][date] !== undefined` is key membership. -/

/-- One parameter's inner object: date key (or `"units"`/`"longname"`) to
numeric value, in insertion order. -/
abbrev ParamMap := List (String × ℚ)

/-- The `properties.parameter` container: parameter code to inner object,
in insertion order. -/
abbrev Params := List (String × ParamMap)

/-- JS property read `m[k]` on an inner object. -/
def lookupVal (m : ParamMap) (k : String) : Option ℚ :=
  (m.find? (fun p => p.1 == k)).map Prod.snd

/-- JS property read `parameters[c]`. -/
def getParam (ps : Params) (c : String) : Option ParamMap :=
  (ps.find? (fun p => p.1 == c)).map Prod.snd

/-- The value the normalizer reads for code `c` at date `k`:
`parameters[c] && parameters[c][k] !== undefined` guarded access. -/
def fetchVal (ps : Params) (c k : String) : Option ℚ :=
  match getParam ps c with
  | some m => lookupVal m k
  | none => none

/-! ### Normalized daily weather record (`DailyWeatherData`) -/

/-- The fields of `DailyWeatherData` that `processApiResponse` can populate;
each optional field is absent (`none`) unless assigned. -/
structure DailyWeatherData where
  date : String
  temperature : Option ℚ := none
  maxTemperature : Option ℚ := none
  minTemperature : Option ℚ := none
  precipitation : Option ℚ := none
  humidity : Option ℚ := none
  windSpeed : Option ℚ := none
  windDirection : Option ℚ := none
  pressure : Option ℚ := none
  cloudCover : Option ℚ := none
  solarRadiation : Option ℚ := none
  soilTemperature : Option ℚ := none
  deepSoilTemperature : Option ℚ := none
  rootZoneMoisture : Option ℚ := none
  topSoilMoisture : Option ℚ := none
  evapotranspiration : Option ℚ := none
  parRadiation : Option ℚ := none
  dewPoint : Option ℚ := none
  wetBulbTemperature : Option ℚ := none
  soilMoisture : Option ℚ := none
  growingDegreeDays : Option ℚ := none
  maxHumidity : Option ℚ := none
deriving DecidableEq, Repr

/-- One conditional assignment `if (defined v) field = v` applied over the
field's previous contents `old`. -/
def assignField (v old : Option ℚ) : Option ℚ :=
  match v with
  | some x => some x
  | none => old

/-- Date-key validity filter of `processApiResponse`:
`date.length === 8 && /^\d+$/.test(date)`. -/
def validDateKey (s : String) : Bool :=
  s.data.length == 8 && s.data.all isDigitChar

/-- The date keys `processApiResponse` iterates for an inner object `m`:
`Object.keys` minus `units`/`longname`, then the 8-digit filter. -/
def datesOf (m : ParamMap) : List String :=
  ((objectKeys (m.map Prod.fst)).filter
      (fun k => k != "units" && k != "longname")).filter validDateKey

/-- The record built by one iteration of the `for (const date of validDates)`
loop: every known parameter code's conditional assignment, in source order.
`soilTemperature` is written by `TSOIL1` first and by the legacy `T_SOIL`
afterwards, so `T_SOIL` sits outermost in its chain. -/
def buildDaily (ps : Params) (k : String) : DailyWeatherData :=
  { date := k
    temperature := assignField (fetchVal ps "T2M" k) none
    maxTemperature := assignField (fetchVal ps "T2M_MAX" k) none
    minTemperature := assignField (fetchVal ps "T2M_MIN" k) none
    precipitation := assignField (fetchVal ps "PRECTOTCORR" k) none
    humidity := assignField (fetchVal ps "RH2M" k) none
    windSpeed := assignField (fetchVal ps "WS10M" k) none
    windDirection := assignField (fetchVal ps "WD10M" k) none
    pressure := assignField (fetchVal ps "PS" k) none
    cloudCover := assignField (fetchVal ps "CLOUD_AMT" k) none
    solarRadiation := assignField (fetchVal ps "ALLSKY_SFC_SW_DWN" k) none
    soilTemperature :=
      assignField (fetchVal ps "T_SOIL" k)
        (assignField (fetchVal ps "TSOIL1" k) none)
    deepSoilTemperature := assignField (fetchVal ps "TSOIL2" k) none
    rootZoneMoisture := assignField (fetchVal ps "GWETROOT" k) none
    topSoilMoisture := assignField (fetchVal ps "GWETTOP" k) none
    evapotranspiration := assignField (fetchVal ps "EVLAND" k) none
    parRadiation := assignField (fetchVal ps "ALLSKY_SFC_PAR_TOT" k) none
    dewPoint := assignField (fetchVal ps "T2MDEW" k) none
    wetBulbTemperature := assignField (fetchVal ps "T2MWET" k) none
    soilMoisture := assignField (fetchVal ps "SOIL_M" k) none
    growingDegreeDays := assignField (fetchVal ps "GDD10" k) none
    maxHumidity := assignField (fetchVal ps "RH2M_HR" k) none }

/-- `Object.keys(dailyData).length > 1`: the record carries at least one
measurement beyond its date. -/
def hasValidData (d : DailyWeatherData) : Bool :=
  d.temperature.isSome || d.maxTemperature.isSome || d.minTemperature.isSome ||
  d.precipitation.isSome || d.humidity.isSome || d.windSpeed.isSome ||
  d.windDirection.isSome || d.pressure.isSome || d.cloudCover.isSome ||
  d.solarRadiation.isSome || d.soilTemperature.isSome ||
  d.deepSoilTemperature.isSome || d.rootZoneMoisture.isSome ||
  d.topSoilMoisture.isSome || d.evapotranspiration.isSome ||
  d.parRadiation.isSome || d.dewPoint.isSome || d.wetBulbTemperature.isSome ||
  d.soilMoisture.isSome || d.growingDegreeDays.isSome || d.maxHumidity.isSome

/-- `processApiResponse` on the `properties.parameter` container: takes the
first parameter key (ES key order), iterates its valid date keys, builds one
record per date, and keeps those with at least one measurement. -/
def processApiResponse (ps : Params) : List DailyWeatherData :=
  match objectKeys (ps.map Prod.fst) with
  | [] => []
  | firstKey :: _ =>
    match getParam ps firstKey with
    | none => []
    | some m0 => ((datesOf m0).map (buildDaily ps)).filter hasValidData

/-- The parameter codes `processApiResponse` recognises, in source order. -/
def knownCodes : List String :=
  ["T2M", "T2M_MAX", "T2M_MIN", "PRECTOTCORR", "RH2M", "WS10M", "WD10M",
   "PS", "CLOUD_AMT", "ALLSKY_SFC_SW_DWN", "TSOIL1", "TSOIL2", "GWETROOT",
   "GWETTOP", "EVLAND", "ALLSKY_SFC_PAR_TOT", "T2MDEW", "T2MWET",
   "T_SOIL", "SOIL_M", "GDD10", "RH2M_HR"]

/-! ### Agro-climate indices (`calculateAgroClimateIndices`) -/

/-- A `number | 'no definido'` value of the TS `AgroClimateIndices` type. -/
inductive NumOrUndet where
  | num (val : ℚ)
  | undet
deriving DecidableEq, Repr

/-- A `boolean | 'no definido'` value. -/
inductive BoolOrUndet where
  | b (val : Bool)
  | undet
deriving DecidableEq, Repr

/-- The TS `AgroClimateIndices` interface: every field optional. -/
structure AgroClimateIndices where
  droughtIndex : Option NumOrUndet := none
  heatStressIndex : Option NumOrUndet := none
  freezeRisk : Option NumOrUndet := none
  diseaseRisk : Option NumOrUndet := none
  irrigationNeed : Option NumOrUndet := none
  optimalPlantingConditions : Option BoolOrUndet := none
  harvestConditions : Option String := none
deriving DecidableEq, Repr

/-- Drought index branch of `calculateAgroClimateIndices`: guarded on both
inputs defined, non-fill, and a nonzero evapotranspiration denominator;
otherwise the explicit `'no definido'` marker. -/
def droughtIndexOf (data : DailyWeatherData) : Option NumOrUndet :=
  match data.precipitation, data.evapotranspiration with
  | some p, some e =>
    if p ≠ -999 ∧ e ≠ -999 ∧ e ≠ 0 then
      some (.num (max 0 (1 - p / e)))
    else some .undet
  | _, _ => some .undet

/-- Heat stress branch: `clamp((maxTemperature + 0.1*humidity - 25)/2, 0, 10)`
when both inputs are defined, non-fill and nonzero; else `'no definido'`. -/
def heatStressIndexOf (data : DailyWeatherData) : Option NumOrUndet :=
  match data.maxTemperature, data.humidity with
  | some t, some h =>
    if t ≠ -999 ∧ h ≠ -999 ∧ t ≠ 0 ∧ h ≠ 0 then
      some (.num (max 0 (min 10 ((t + h * (1 / 10) - 25) / 2))))
    else some .undet
  | _, _ => some .undet

/-- Freeze risk branch. -/
def freezeRiskOf (data : DailyWeatherData) : Option NumOrUndet :=
  match data.minTemperature with
  | some t =>
    if t ≠ -999 then
      if t ≤ 0 ∧ t ≠ 0 then some (.num 1)
      else if t < 3 then some (.num (max 0 ((3 - t) / 3)))
      else some (.num 0)
    else some .undet
  | none => some .undet

/-- Disease risk branch: only assigned when humidity and temperature are
defined (no fill/zero guard in the source). -/
def diseaseRiskOf (data : DailyWeatherData) : Option NumOrUndet :=
  match data.humidity, data.temperature with
  | some h, some t =>
    if h > 80 ∧ t > 15 ∧ t < 30 then
      some (.num (min 1 ((h - 80) / 20 * ((30 - |t - 22.5|) / 7.5))))
    else some (.num 0)
  | _, _ => none

/-- Irrigation need branch: only assigned when evapotranspiration,
precipitation and soil moisture are all defined. -/
def irrigationNeedOf (data : DailyWeatherData) : Option NumOrUndet :=
  match data.evapotranspiration, data.precipitation, data.soilMoisture with
  | some e, some p, some sm =>
    some (.num (max 0 (e - p) + max 0 (50 - sm) * (1 / 2)))
  | _, _, _ => none

/-- Planting conditions branch: only assigned when soil temperature and soil
moisture are defined. -/
def optimalPlantingOf (data : DailyWeatherData) : Option BoolOrUndet :=
  match data.soilTemperature, data.soilMoisture with
  | some st, some sm => some (.b (decide (st ≥ 10 ∧ sm ≥ 30 ∧ sm ≤ 70)))
  | _, _ => none

/-- Harvest conditions branch: only assigned when precipitation and humidity
are defined. -/
def harvestConditionsOf (data : DailyWeatherData) : Option String :=
  match data.precipitation, data.humidity with
  | some p, some h =>
    if p < 1 ∧ h < 70 then some "Buenas"
    else if p < 5 ∧ h < 85 then some "Regulares"
    else some "Malas"
  | _, _ => none

/-- `calculateAgroClimateIndices`: each index computed by its own guarded
branch over one day's record. -/
def calculateAgroClimateIndices (data : DailyWeatherData) : AgroClimateIndices :=
  { droughtIndex := droughtIndexOf data
    heatStressIndex := heatStressIndexOf data
    freezeRisk := freezeRiskOf data
    diseaseRisk := diseaseRiskOf data
    irrigationNeed := irrigationNeedOf data
    optimalPlantingConditions := optimalPlantingOf data
    harvestConditions := harvestConditionsOf data }

/-! ### Advisory operations (post-fetch logic)

Each public advisory method fetches a record list and then deterministically
interprets it; those interpretation steps are embedded as functions of the
fetched list, with the zero-record error check in front. -/

/-- `Math.round`: round half toward positive infinity. -/
def jsRound (q : ℚ) : ℤ := ⌊q + 1 / 2⌋

/-- Result shape of `shouldIrrigate`. -/
structure IrrigationAdvice where
  shouldIrrigate : BoolOrUndet
  reason : String
  recommendedAmount : Option ℤ := none
deriving DecidableEq, Repr

/-- The decision `shouldIrrigate` makes on the most recent day's record. -/
def shouldIrrigateCore (today : DailyWeatherData) : IrrigationAdvice :=
  if today.precipitation = some (-999) ∨ today.soilMoisture = some (-999) ∨
      today.evapotranspiration = some (-999) ∨ today.soilMoisture = some 0 then
    { shouldIrrigate := .undet
      reason := "No hay datos suficientes para determinar la necesidad de riego." }
  else if today.precipitation.getD 0 > 5 then
    { shouldIrrigate := .b false
      reason := "Ha llovido suficiente hoy (" ++
        reprStr (today.precipitation.getD 0) ++ " mm), no es necesario regar." }
  else
    let soilMoisture := today.soilMoisture.getD 0
    let evapotranspiration := today.evapotranspiration.getD 0
    if soilMoisture < 30 ∧ evapotranspiration > 4 then
      { shouldIrrigate := .b true
        reason := "Baja humedad del suelo (" ++ reprStr soilMoisture ++
          "%) y alta evapotranspiración (" ++ reprStr evapotranspiration ++
          " mm/día)."
        recommendedAmount := some (jsRound ((30 - soilMoisture) * (1 / 2))) }
    else
      { shouldIrrigate := .b false
        reason := "Condiciones adecuadas: humedad del suelo (" ++
          reprStr soilMoisture ++ "%) y evapotranspiración (" ++
          reprStr evapotranspiration ++ " mm/día)." }

/-- `shouldIrrigate` after the fetch: errors on zero records, then inspects
`weatherData[weatherData.length - 1]`. -/
def shouldIrrigateFromData : List DailyWeatherData → Except String IrrigationAdvice
  | [] => .error "No se obtuvieron datos meteorológicos"
  | d :: ds => .ok (shouldIrrigateCore ((d :: ds).getLast (List.cons_ne_nil d ds)))

/-- `isRaining` after the fetch: errors on zero records, else
`(weatherData[0].precipitation || 0) > 0`. -/
def isRainingFromData : List DailyWeatherData → Except String Bool
  | [] => .error "No se obtuvieron datos meteorológicos"
  | d :: _ => .ok (decide (d.precipitation.getD 0 > 0))

/-- Result shape of `checkFrostRisk`. -/
structure FrostAdvice where
  riskLevel : String
  message : String
deriving DecidableEq, Repr

/-- `checkFrostRisk` after the fetch. -/
def checkFrostRiskFromData : List DailyWeatherData → Except String FrostAdvice
  | [] => .error "No se obtuvieron datos meteorológicos"
  | d :: ds =>
    let minTemps := (d :: ds).map (fun x => x.minTemperature.getD 0)
    if minTemps.any (fun t => t == -999 || t == 0) then
      .ok { riskLevel := "no definido"
            message := "No hay datos disponibles para determinar el riesgo de heladas." }
    else
      let lowestTemp := (ds.map (fun x => x.minTemperature.getD 0)).foldl min
        (d.minTemperature.getD 0)
      if lowestTemp ≤ 0 then
        .ok { riskLevel := "alto"
              message := "¡ALERTA! Riesgo alto de heladas. Temperatura mínima prevista: " ++
                reprStr lowestTemp ++ "°C. Se recomienda proteger cultivos sensibles." }
      else if lowestTemp ≤ 3 then
        .ok { riskLevel := "medio"
              message := "Riesgo medio de heladas. Temperatura mínima prevista: " ++
                reprStr lowestTemp ++ "°C. Considere medidas preventivas para cultivos sensibles." }
      else
        .ok { riskLevel := "bajo"
              message := "Riesgo bajo de heladas. Temperatura mínima prevista: " ++
                reprStr lowestTemp ++ "°C." }

/-- The `details` object of `checkPlantingConditions`. -/
structure PlantingDetails where
  soilMoisture : ℚ
  soilTemperature : ℚ
  rain : ℚ
  forecastRain : Bool
deriving DecidableEq, Repr

/-- Result shape of `checkPlantingConditions`. -/
structure PlantingAdvice where
  isOptimal : BoolOrUndet
  message : String
  details : PlantingDetails
deriving DecidableEq, Repr

/-- `checkPlantingConditions` after the fetch: errors on zero records, then
interprets `weatherData[0]` (today) and `weatherData[1]` (forecast). -/
def checkPlantingFromData : List DailyWeatherData → Except String PlantingAdvice
  | [] => .error "No se obtuvieron datos meteorológicos"
  | currentData :: rest =>
    let forecastData := rest.head?
    let soilMoisture := currentData.soilMoisture.getD 0
    let soilTemperature := currentData.soilTemperature.getD 0
    let rain := currentData.precipitation.getD 0
    let forecastRain :=
      match forecastData with
      | some f => decide (f.precipitation.getD 0 > 1)
      | none => false
    let details : PlantingDetails :=
      { soilMoisture, soilTemperature, rain, forecastRain }
    let forecastFill : Bool :=
      match forecastData with
      | some f => decide (f.precipitation = some (-999))
      | none => false
    if soilMoisture = -999 ∨ soilTemperature = -999 ∨ rain = -999 ∨
        soilMoisture = 0 ∨ soilTemperature = 0 ∨ forecastFill = true then
      .ok { isOptimal := .undet
            message := "No hay datos suficientes para determinar condiciones de siembra."
            details }
    else if soilMoisture ≥ 30 ∧ soilMoisture ≤ 70 ∧ soilTemperature ≥ 10 ∧
        rain < 5 ∧ forecastRain = false then
      .ok { isOptimal := .b true
            message := "Condiciones óptimas para siembra. Humedad y temperatura del suelo adecuadas, sin lluvias previstas."
            details }
    else
      let msg := "Condiciones no óptimas para siembra:"
      let msg := if soilMoisture < 30 then msg ++ " Suelo demasiado seco."
        else if soilMoisture > 70 then msg ++ " Suelo demasiado húmedo." else msg
      let msg := if soilTemperature < 10 then
        msg ++ " Temperatura del suelo demasiado baja." else msg
      let msg := if rain ≥ 5 then msg ++ " Lluvia reciente." else msg
      let msg := if forecastRain then msg ++ " Lluvia prevista para mañana." else msg
      .ok { isOptimal := .b false, message := msg, details }

/-- Parameter codes requested by `checkPlantingConditions`. -/
def plantingParamCodes : List String := ["TSOIL1", "TSOIL2", "PRECTOTCORR", "T2M"]

/-- Parameter codes requested by `shouldIrrigate`. -/
def irrigateParamCodes : List String :=
  ["PRECTOTCORR", "T2M", "RH2M", "TSOIL1", "EVLAND"]

/-! ### Water stress index (`calculateWaterStressIndex`, `src/index.ts`) -/

/-- Result shape of `calculateWaterStressIndex`. -/
structure WaterStressResult where
  stressIndex : ℚ
  status : String
  recommendation : String
deriving DecidableEq, Repr

/-- `calculateWaterStressIndex`: water balance, clamped stress index, and the
status/recommendation tiers. -/
def calculateWaterStressIndex (precipitation evapotranspiration soilMoisture : ℚ) :
    WaterStressResult :=
  let waterBalance := precipitation - evapotranspiration
  let stressIndex := max 0 (min 10 (5 - waterBalance - soilMoisture / 20))
  if stressIndex < 3 then
    { stressIndex, status := "óptimo"
      recommendation := "No es necesario regar. Condiciones hídricas adecuadas." }
  else if stressIndex < 5 then
    { stressIndex, status := "leve"
      recommendation := "Monitorear la humedad del suelo. Riego ligero recomendado si no hay previsión de lluvia." }
  else if stressIndex < 7.5 then
    { stressIndex, status := "moderado"
      recommendation := "Estrés hídrico moderado. Se recomienda riego para evitar daños a los cultivos." }
  else
    { stressIndex, status := "severo"
      recommendation := "Estrés hídrico severo. Riego urgente para evitar pérdidas significativas." }

/-! ### Helper lemmas -/

theorem assignField_none (v : Option ℚ) : assignField v none = v := by
  cases v <;> rfl

theorem isSome_assignField (v o : Option ℚ) :
    (assignField v o).isSome = (v.isSome || o.isSome) := by
  cases v <;> simp [assignField]

theorem perm_objectKeys (ks : List String) : List.Perm (objectKeys ks) ks :=
  ((List.perm_insertionSort keyLe _).append_right _).trans
    (List.filter_append_perm _ ks)

theorem mem_objectKeys {ks : List String} {k : String} :
    k ∈ objectKeys ks ↔ k ∈ ks :=
  (perm_objectKeys ks).mem_iff

theorem objectKeys_id {ks : List String}
    (h : ∀ k ∈ ks, isArrayIndex k = false) : objectKeys ks = ks := by
  unfold objectKeys
  have h1 : ks.filter isArrayIndex = [] :=
    List.filter_eq_nil_iff.mpr (fun a ha => by simp [h a ha])
  have h2 : ks.filter (fun k => !isArrayIndex k) = ks :=
    List.filter_eq_self.mpr (fun a ha => by simp [h a ha])
  rw [h1, h2]
  rfl

theorem validDateKey_ne_units {k : String} (h : validDateKey k = true) :
    (k != "units" && k != "longname") = true := by
  by_cases hu : k = "units"
  · subst hu; exact absurd h (by decide)
  · by_cases hl : k = "longname"
    · subst hl; exact absurd h (by decide)
    · simp [hu, hl]

theorem datesOf_eq_filter (m : ParamMap) :
    datesOf m = (objectKeys (m.map Prod.fst)).filter validDateKey := by
  unfold datesOf
  rw [List.filter_filter]
  apply List.filter_congr
  intro a _
  by_cases hv : validDateKey a
  · simp [hv, validDateKey_ne_units hv]
  · simp [hv]

theorem datesOf_perm (m : ParamMap) :
    List.Perm (datesOf m) ((m.map Prod.fst).filter validDateKey) := by
  rw [datesOf_eq_filter]
  exact (perm_objectKeys _).filter _

theorem mem_datesOf {m : ParamMap} {k : String} (h : k ∈ datesOf m) :
    validDateKey k = true ∧ k ∈ m.map Prod.fst := by
  have := (datesOf_perm m).mem_iff.mp h
  exact ⟨(List.mem_filter.mp this).2, (List.mem_filter.mp this).1⟩

theorem sorted_datesOf {m : ParamMap}
    (h : ∀ k ∈ m.map Prod.fst, validDateKey k = true → isArrayIndex k = true) :
    List.Sorted keyLe (datesOf m) := by
  rw [datesOf_eq_filter]
  unfold objectKeys
  rw [List.filter_append]
  have h2 : ((m.map Prod.fst).filter (fun k => !isArrayIndex k)).filter
      validDateKey = [] := by
    apply List.filter_eq_nil_iff.mpr
    intro a ha
    have ha' := List.mem_filter.mp ha
    intro hv
    have := h a ha'.1 hv
    simp [this] at ha'
  rw [h2, List.append_nil]
  exact (List.sorted_insertionSort keyLe _).filter _

theorem getParam_eq_none {ps : Params} {c : String}
    (h : c ∉ ps.map Prod.fst) : getParam ps c = none := by
  unfold getParam
  rw [List.find?_eq_none.mpr, Option.map_none']
  intro x hx
  simp only [beq_iff_eq]
  intro hc
  exact h (List.mem_map.mpr ⟨x, hx, hc⟩)

theorem getParam_cons_self (c0 : String) (m0 : ParamMap) (rest : Params) :
    getParam ((c0, m0) :: rest) c0 = some m0 := by
  unfold getParam
  rw [List.find?_cons_of_pos _ (by simp)]
  rfl

theorem soilMoisture_buildDaily (ps : Params) (k : String) :
    (buildDaily ps k).soilMoisture = fetchVal ps "SOIL_M" k :=
  assignField_none _

theorem mem_processApiResponse {ps : Params} {d : DailyWeatherData}
    (h : d ∈ processApiResponse ps) : ∃ k, d = buildDaily ps k := by
  unfold processApiResponse at h
  split at h
  · exact absurd h (List.not_mem_nil d)
  · split at h
    · exact absurd h (List.not_mem_nil d)
    · have := List.mem_filter.mp h
      obtain ⟨k, _, hk⟩ := List.mem_map.mp this.1
      exact ⟨k, hk.symm⟩

theorem soilMoisture_none_of_no_soil_code {ps : Params}
    (h : "SOIL_M" ∉ ps.map Prod.fst) :
    ∀ d ∈ processApiResponse ps, d.soilMoisture = none := by
  intro d hd
  obtain ⟨k, rfl⟩ := mem_processApiResponse hd
  rw [soilMoisture_buildDaily]
  unfold fetchVal
  rw [getParam_eq_none h]

theorem hasValidData_of_code {ps : Params} {k c : String} (hc : c ∈ knownCodes)
    (hs : (fetchVal ps c k).isSome = true) :
    hasValidData (buildDaily ps k) = true := by
  fin_cases hc <;>
    simp [hasValidData, buildDaily, isSome_assignField, hs]

/-! ### Claim C10: water stress index at a fixed input -/

/-- Claim C10: `calculateWaterStressIndex` on precipitation 2.5,
evapotranspiration 4.8, soil moisture 35 yields stress index
`5.55 = clamp(5 - (2.5 - 4.8) - 35/20, 0, 10)` with status `'moderado'`. -/
theorem C10_waterStress :
    (calculateWaterStressIndex (5 / 2) (24 / 5) 35).stressIndex = (5.55 : ℚ) ∧
    (calculateWaterStressIndex (5 / 2) (24 / 5) 35).stressIndex =
      max 0 (min 10 (5 - (5 / 2 - 24 / 5) - 35 / 20)) ∧
    (calculateWaterStressIndex (5 / 2) (24 / 5) 35).status = "moderado" := by
  refine ⟨?_, ?_, ?_⟩ <;> norm_num [calculateWaterStressIndex]

/-! ### Claim C8: zero-record fetches raise errors -/

/-- Claim C8: `isRaining`, `shouldIrrigate`, `checkFrostRisk` and
`checkPlantingConditions` all raise an error (and return no advisory value)
when the fetch-and-normalize step yields zero records. -/
theorem C8_emptyDataError :
    isRainingFromData [] = .error "No se obtuvieron datos meteorológicos" ∧
    shouldIrrigateFromData [] = .error "No se obtuvieron datos meteorológicos" ∧
    checkFrostRiskFromData [] = .error "No se obtuvieron datos meteorológicos" ∧
    checkPlantingFromData [] = .error "No se obtuvieron datos meteorológicos" :=
  ⟨rfl, rfl, rfl, rfl⟩

/-! ### Claim C6: drought index -/

/-- Claim C6: the drought index is `'no definido'` whenever
evapotranspiration is undefined, `-999` or `0`, or precipitation is undefined
or `-999`; otherwise it equals `max 0 (1 - precipitation/evapotranspiration)`. -/
theorem C6_droughtIndex (data : DailyWeatherData) :
    ((data.evapotranspiration = none ∨ data.evapotranspiration = some (-999) ∨
        data.evapotranspiration = some 0 ∨ data.precipitation = none ∨
        data.precipitation = some (-999)) →
      (calculateAgroClimateIndices data).droughtIndex = some .undet) ∧
    (∀ p e : ℚ, data.precipitation = some p → data.evapotranspiration = some e →
      p ≠ -999 → e ≠ -999 → e ≠ 0 →
      (calculateAgroClimateIndices data).droughtIndex =
        some (.num (max 0 (1 - p / e)))) := by
  have hd : (calculateAgroClimateIndices data).droughtIndex =
      droughtIndexOf data := rfl
  constructor
  · intro h
    rw [hd]
    rcases hp : data.precipitation with _ | p <;>
      rcases he : data.evapotranspiration with _ | e <;>
      simp only [droughtIndexOf, hp, he]
    rw [if_neg]
    rw [hp, he] at h
    simp only [Option.some.injEq, reduceCtorEq, false_or] at h
    tauto
  · intro p e hp he h1 h2 h3
    rw [hd]
    simp only [droughtIndexOf, hp, he]
    rw [if_pos ⟨h1, h2, h3⟩]

/-- Witness for C6 at precipitation 10, evapotranspiration 4. -/
theorem C6_witness :
    (calculateAgroClimateIndices
        { date := "20230101", precipitation := some 10,
          evapotranspiration := some 4 }).droughtIndex =
      some (.num (max 0 (1 - 10 / 4))) :=
  (C6_droughtIndex _).2 10 4 rfl rfl (by norm_num) (by norm_num) (by norm_num)

/-! ### Claim C7: freeze risk -/

/-- Claim C7: freeze risk is `'no definido'` when the minimum temperature is
undefined or `-999`; otherwise `1` for `t ≤ 0`, `max 0 ((3 - t)/3)` for
`0 < t < 3`, and `0` for `t ≥ 3`. -/
theorem C7_freezeRisk (data : DailyWeatherData) :
    ((data.minTemperature = none ∨ data.minTemperature = some (-999)) →
      (calculateAgroClimateIndices data).freezeRisk = some .undet) ∧
    (∀ t : ℚ, data.minTemperature = some t → t ≠ -999 →
      ((t ≤ 0 → (calculateAgroClimateIndices data).freezeRisk = some (.num 1)) ∧
       (0 < t → t < 3 →
         (calculateAgroClimateIndices data).freezeRisk =
           some (.num (max 0 ((3 - t) / 3)))) ∧
       (3 ≤ t → (calculateAgroClimateIndices data).freezeRisk = some (.num 0)))) := by
  have hd : (calculateAgroClimateIndices data).freezeRisk =
      freezeRiskOf data := rfl
  constructor
  · intro h
    rw [hd]
    rcases hm : data.minTemperature with _ | t <;>
      simp only [freezeRiskOf, hm]
    rw [hm] at h
    simp only [Option.some.injEq, reduceCtorEq, false_or] at h
    rw [if_neg]
    simp [h]
  · intro t hm hne
    rw [hd]
    refine ⟨?_, ?_, ?_⟩
    · intro hle
      simp only [freezeRiskOf, hm]
      rw [if_pos hne]
      by_cases h0 : t = 0
      · subst h0
        rw [if_neg (by simp), if_pos (by norm_num)]
        norm_num
      · rw [if_pos ⟨hle, h0⟩]
    · intro hgt hlt
      simp only [freezeRiskOf, hm]
      rw [if_pos hne, if_neg (by rintro ⟨h1, -⟩; linarith), if_pos hlt]
    · intro hge
      simp only [freezeRiskOf, hm]
      rw [if_pos hne, if_neg (by rintro ⟨h1, -⟩; linarith),
        if_neg (not_lt.mpr hge)]

/-- Witness for C7 at the two inputs named by the claim:
`freezeRisk(-2.5) = 1` and `freezeRisk(8.5) = 0`. -/
theorem C7_witness :
    (calculateAgroClimateIndices
        { date := "20230101", minTemperature := some (-(5 / 2)) }).freezeRisk =
      some (.num 1) ∧
    (calculateAgroClimateIndices
        { date := "20230101", minTemperature := some (17 / 2) }).freezeRisk =
      some (.num 0) :=
  ⟨((C7_freezeRisk _).2 (-(5 / 2)) rfl (by norm_num)).1 (by norm_num),
   ((C7_freezeRisk _).2 (17 / 2) rfl (by norm_num)).2.2 (by norm_num)⟩

/-! ### Claim C5: irrigation decision on the most recent day -/

/-- Claim C5: `shouldIrrigate` on the most recent day returns
`'no definido'` when precipitation/soil moisture/evapotranspiration is the
fill value or soil moisture is exactly `0` (taking precedence over the other
checks); otherwise `false` when precipitation exceeds 5 mm; otherwise `true`
(with a recommended amount) iff soil moisture is below 30 and
evapotranspiration above 4, else `false`. -/
theorem C5_shouldIrrigate (today : DailyWeatherData) :
    ((today.precipitation = some (-999) ∨ today.soilMoisture = some (-999) ∨
        today.evapotranspiration = some (-999) ∨ today.soilMoisture = some 0) →
      (shouldIrrigateCore today).shouldIrrigate = .undet) ∧
    (¬(today.precipitation = some (-999) ∨ today.soilMoisture = some (-999) ∨
        today.evapotranspiration = some (-999) ∨ today.soilMoisture = some 0) →
      ((today.precipitation.getD 0 > 5 →
          (shouldIrrigateCore today).shouldIrrigate = .b false) ∧
       (today.precipitation.getD 0 ≤ 5 →
        (((shouldIrrigateCore today).shouldIrrigate = .b true ∧
            (shouldIrrigateCore today).recommendedAmount.isSome = true) ↔
          (today.soilMoisture.getD 0 < 30 ∧
            today.evapotranspiration.getD 0 > 4)) ∧
        (¬(today.soilMoisture.getD 0 < 30 ∧
            today.evapotranspiration.getD 0 > 4) →
          (shouldIrrigateCore today).shouldIrrigate = .b false)))) := by
  constructor
  · intro h
    unfold shouldIrrigateCore
    rw [if_pos h]
  · intro hg
    constructor
    · intro hp
      unfold shouldIrrigateCore
      rw [if_neg hg, if_pos hp]
    · intro hp
      have hp' : ¬(today.precipitation.getD 0 > 5) := not_lt.mpr hp
      unfold shouldIrrigateCore
      rw [if_neg hg, if_neg hp']
      constructor
      · by_cases hc : today.soilMoisture.getD 0 < 30 ∧
            today.evapotranspiration.getD 0 > 4
        · rw [if_pos hc]
          simp [hc]
        · rw [if_neg hc]
          simp [hc]
      · intro hc
        rw [if_neg hc]

/-- Witness for C5: valid data, dry soil, high evapotranspiration. -/
theorem C5_witness :
    (shouldIrrigateCore
        { date := "20230101", precipitation := some 2,
          soilMoisture := some 20, evapotranspiration := some 5 }).shouldIrrigate =
      .b true ∧
    (shouldIrrigateCore
        { date := "20230101", precipitation := some 2,
          soilMoisture := some 20, evapotranspiration := some 5 }).recommendedAmount.isSome =
      true :=
  (((C5_shouldIrrigate _).2 (by norm_num)).2 (by norm_num)).1.mpr
    (by norm_num)

/-! ### Claim C3: presence of index fields -/

/-- Claim C3 counterexample: on a record with no measurements, the disease
risk, irrigation need, planting-conditions and harvest-conditions fields are
left absent (`none`), not set to the `'no definido'` marker the claim
requires. -/
theorem C3_counterexample :
    (calculateAgroClimateIndices { date := "20230101" }).diseaseRisk = none ∧
    (calculateAgroClimateIndices { date := "20230101" }).irrigationNeed = none ∧
    (calculateAgroClimateIndices
        { date := "20230101" }).optimalPlantingConditions = none ∧
    (calculateAgroClimateIndices { date := "20230101" }).harvestConditions = none :=
  ⟨rfl, rfl, rfl, rfl⟩

/-- Claim C3 amended: only the drought, heat-stress and freeze-risk fields
are always present (computed or `'no definido'`); the other four fields are
present exactly when all their required inputs are defined, and are left
absent otherwise. -/
theorem C3_amendedIndices (data : DailyWeatherData) :
    (calculateAgroClimateIndices data).droughtIndex.isSome = true ∧
    (calculateAgroClimateIndices data).heatStressIndex.isSome = true ∧
    (calculateAgroClimateIndices data).freezeRisk.isSome = true ∧
    ((calculateAgroClimateIndices data).diseaseRisk.isSome = true ↔
      data.humidity.isSome = true ∧ data.temperature.isSome = true) ∧
    ((calculateAgroClimateIndices data).irrigationNeed.isSome = true ↔
      data.evapotranspiration.isSome = true ∧ data.precipitation.isSome = true ∧
        data.soilMoisture.isSome = true) ∧
    ((calculateAgroClimateIndices data).optimalPlantingConditions.isSome = true ↔
      data.soilTemperature.isSome = true ∧ data.soilMoisture.isSome = true) ∧
    ((calculateAgroClimateIndices data).harvestConditions.isSome = true ↔
      data.precipitation.isSome = true ∧ data.humidity.isSome = true) := by
  refine ⟨?_, ?_, ?_, ?_, ?_, ?_, ?_⟩
  · show (droughtIndexOf data).isSome = true
    rcases hp : data.precipitation with _ | p <;>
      rcases he : data.evapotranspiration with _ | e <;>
      simp only [droughtIndexOf, hp, he] <;>
      first
      | rfl
      | (split_ifs <;> rfl)
  · show (heatStressIndexOf data).isSome = true
    rcases ht : data.maxTemperature with _ | t <;>
      rcases hh : data.humidity with _ | h <;>
      simp only [heatStressIndexOf, ht, hh] <;>
      first
      | rfl
      | (split_ifs <;> rfl)
  · show (freezeRiskOf data).isSome = true
    rcases hm : data.minTemperature with _ | t <;>
      simp only [freezeRiskOf, hm] <;>
      first
      | rfl
      | (split_ifs <;> rfl)
  · show (diseaseRiskOf data).isSome = true ↔ _
    rcases hh : data.humidity with _ | h <;>
      rcases ht : data.temperature with _ | t <;>
      simp only [diseaseRiskOf, hh, ht] <;>
      simp only [Option.isSome_none, Option.isSome_some, Bool.false_eq_true,
        false_iff, true_and, and_true, iff_true, not_and, true_iff] <;>
      first
      | (split_ifs <;> rfl)
      | simp
  · show (irrigationNeedOf data).isSome = true ↔ _
    rcases he : data.evapotranspiration with _ | e <;>
      rcases hp : data.precipitation with _ | p <;>
      rcases hs : data.soilMoisture with _ | sm <;>
      simp [irrigationNeedOf, he, hp, hs]
  · show (optimalPlantingOf data).isSome = true ↔ _
    rcases hst : data.soilTemperature with _ | st <;>
      rcases hs : data.soilMoisture with _ | sm <;>
      simp [optimalPlantingOf, hst, hs]
  · show (harvestConditionsOf data).isSome = true ↔ _
    rcases hp : data.precipitation with _ | p <;>
      rcases hh : data.humidity with _ | h <;>
      simp only [harvestConditionsOf, hp, hh] <;>
      simp only [Option.isSome_none, Option.isSome_some, Bool.false_eq_true,
        false_iff, true_and, and_true, iff_true, not_and, true_iff] <;>
      first
      | (split_ifs <;> rfl)
      | simp

/-! ### Claim C2: legacy vs. modern soil-temperature codes -/

/-- A response carrying both the modern `TSOIL1` (value 12) and the legacy
`T_SOIL` (value 7) for the same date. -/
def c2ps : Params :=
  [("TSOIL1", [("20230101", 12)]), ("T_SOIL", [("20230101", 7)])]

/-- Claim C2 counterexample: with both codes present, the record stores the
legacy `T_SOIL` value 7, not the modern `TSOIL1` value 12 — `T_SOIL` is
processed after `TSOIL1` in the source, so the legacy code overwrites the
modern one, contrary to the claim. -/
theorem C2_counterexample :
    (processApiResponse c2ps).map DailyWeatherData.soilTemperature =
      [some 7] ∧
    (processApiResponse c2ps).map DailyWeatherData.soilTemperature ≠
      [some 12] := by
  constructor
  · decide
  · decide

/-- Claim C2 amended: when the legacy `T_SOIL` and the modern `TSOIL1` both
carry a value for the same date, the legacy `T_SOIL` value is the one stored
in `soilTemperature` (the legacy code is processed after the modern one and
overwrites it). -/
theorem C2_amendedPrecedence (ps : Params) (k : String) (vLegacy vModern : ℚ)
    (hl : fetchVal ps "T_SOIL" k = some vLegacy)
    (_hm : fetchVal ps "TSOIL1" k = some vModern) :
    (buildDaily ps k).soilTemperature = some vLegacy := by
  have : (buildDaily ps k).soilTemperature =
      assignField (fetchVal ps "T_SOIL" k)
        (assignField (fetchVal ps "TSOIL1" k) none) := rfl
  rw [this, hl]
  rfl

/-- Witness for C2 on the concrete two-code response. -/
theorem C2_witness :
    (buildDaily c2ps "20230101").soilTemperature = some 7 :=
  C2_amendedPrecedence c2ps "20230101" 7 12 (by decide) (by decide)

/-! ### Claim C4: planting check can never be determined -/

/-- Claim C4: when every parameter in the response is one of the codes
`checkPlantingConditions` itself requests (none of which maps to
`soilMoisture`, which only `SOIL_M` populates), every normalized record has
an absent `soilMoisture`; it defaults to 0, trips the `soilMoisture === 0`
guard, and the check always answers `'no definido'`. -/
theorem C4_plantingAlwaysUndet (ps : Params)
    (hcodes : ∀ c ∈ ps.map Prod.fst, c ∈ plantingParamCodes) :
    (∀ d ∈ processApiResponse ps, d.soilMoisture = none) ∧
    (processApiResponse ps ≠ [] →
      (checkPlantingFromData (processApiResponse ps)).toOption.map
        PlantingAdvice.isOptimal = some BoolOrUndet.undet) := by
  have hsm : "SOIL_M" ∉ ps.map Prod.fst := by
    intro hmem
    have := hcodes _ hmem
    simp [plantingParamCodes] at this
  have hnone := soilMoisture_none_of_no_soil_code hsm
  refine ⟨hnone, ?_⟩
  intro hne
  rcases hE : processApiResponse ps with _ | ⟨d, rest⟩
  · exact absurd hE hne
  · have hd : d.soilMoisture = none := hnone d (hE ▸ List.mem_cons_self d rest)
    simp only [checkPlantingFromData, hd, Option.getD_none]
    rw [if_pos (by tauto)]
    rfl

/-- Witness for C4 on a one-parameter, one-day response. -/
theorem C4_witness :
    (checkPlantingFromData
        (processApiResponse [("T2M", [("20230101", 5)])])).toOption.map
      PlantingAdvice.isOptimal = some BoolOrUndet.undet :=
  (C4_plantingAlwaysUndet _ (by decide)).2 (by decide)

/-! ### Claim C9: irrigation advisory with absent soil moisture -/

/-- Claim C9: the parameter list `shouldIrrigate` requests contains no
soil-moisture code, so every normalized record has `soilMoisture` absent;
the absent value does not trip the `'no definido'` guard, is treated as 0,
and with non-fill precipitation ≤ 5 and non-fill evapotranspiration the
advisory answers `true` iff evapotranspiration > 4, recommending
`round((30 - 0) * 0.5) = 15` mm. -/
theorem C9_irrigateNoSoilMoisture (ps : Params)
    (hcodes : ∀ c ∈ ps.map Prod.fst, c ∈ irrigateParamCodes) :
    (∀ d ∈ processApiResponse ps, d.soilMoisture = none) ∧
    (∀ today : DailyWeatherData, today.soilMoisture = none →
      ∀ p e : ℚ, today.precipitation = some p →
        today.evapotranspiration = some e →
        p ≠ -999 → e ≠ -999 → p ≤ 5 →
        ((shouldIrrigateCore today).shouldIrrigate = .b (decide (e > 4)) ∧
         (shouldIrrigateCore today).recommendedAmount =
           if e > 4 then some 15 else none)) := by
  have hsm : "SOIL_M" ∉ ps.map Prod.fst := by
    intro hmem
    have := hcodes _ hmem
    simp [irrigateParamCodes] at this
  refine ⟨soilMoisture_none_of_no_soil_code hsm, ?_⟩
  intro today hnone p e hp he hpf hef hple
  have hguard : ¬(today.precipitation = some (-999) ∨
      today.soilMoisture = some (-999) ∨
      today.evapotranspiration = some (-999) ∨ today.soilMoisture = some 0) := by
    rw [hp, he, hnone]
    simp only [Option.some.injEq, reduceCtorEq, or_false, false_or]
    tauto
  have hrain : ¬(today.precipitation.getD 0 > 5) := by
    rw [hp]
    simpa using not_lt.mpr hple
  unfold shouldIrrigateCore
  rw [if_neg hguard, if_neg hrain, hnone, he]
  by_cases hgt : e > 4
  · rw [if_pos (by refine ⟨by norm_num, ?_⟩; simpa using hgt)]
    refine ⟨by simp [hgt], ?_⟩
    rw [if_pos hgt]
    try rfl
    try norm_num [jsRound]
  · rw [if_neg (by simpa using hgt)]
    refine ⟨by simp [hgt], ?_⟩
    rw [if_neg hgt]

/-- Witness for C9: wet-enough record with high evapotranspiration. -/
theorem C9_witness :
    (shouldIrrigateCore
        { date := "20230101", precipitation := some 2,
          evapotranspiration := some 5 }).shouldIrrigate = .b true ∧
    (shouldIrrigateCore
        { date := "20230101", precipitation := some 2,
          evapotranspiration := some 5 }).recommendedAmount = some 15 := by
  have h := (C9_irrigateNoSoilMoisture [] (by decide)).2
    { date := "20230101", precipitation := some 2,
      evapotranspiration := some 5 } rfl 2 5 rfl rfl
    (by norm_num) (by norm_num) (by norm_num)
  constructor
  · rw [h.1]
    norm_num
  · rw [h.2]
    norm_num

/-! ### Claim C1: shape of the normalized output -/

/-- A response whose single parameter holds two valid 8-digit date keys,
each with a populated value, where one date key has a leading zero. -/
def c1ps : Params := [("T2M", [("20230102", 3), ("09990101", 5)])]

/-- Claim C1 counterexample: both date keys pass the 8-digit validity
filter and carry a value, and `processApiResponse` does return two records,
but they are not sorted ascending by date string: `"09990101"` has a leading
zero, so it is not an ECMAScript integer-index key and `Object.keys` lists
it after `"20230102"`. -/
theorem C1_counterexample :
    (processApiResponse c1ps).map DailyWeatherData.date =
      ["20230102", "09990101"] ∧
    validDateKey "20230102" = true ∧ validDateKey "09990101" = true ∧
    ¬ List.Sorted (fun a b : String => a ≤ b)
        ((processApiResponse c1ps).map DailyWeatherData.date) := by
  have hmap : (processApiResponse c1ps).map DailyWeatherData.date =
      ["20230102", "09990101"] := by decide
  refine ⟨hmap, by decide, by decide, ?_⟩
  intro h
  rw [hmap] at h
  have hle := List.rel_of_sorted_cons h "09990101" (by simp)
  have hlt : ("09990101" : String) < "20230102" := by
    rw [String.lt_iff_toList_lt]
    decide
  exact hle.not_lt hlt

/-- Claim C1 amended: for a response whose parameter codes are ordinary
(non-integer-index) strings, whose first parameter holds the date keys, and
whose valid 8-digit date keys have no leading zero (equivalently, are
canonical integer keys) and each carry at least one populated known
parameter, `processApiResponse` returns exactly one record per valid date
key, sorted ascending by the numeric value of the date key (which, for
equal-length keys without leading zeros, is ascending date-string order),
and each record contains exactly the fields present in the input for its
date, with the legacy `T_SOIL` value overriding `TSOIL1`. -/
theorem C1_amendedNormalize (ps : Params) (c0 : String) (m0 : ParamMap)
    (rest : Params) (hps : ps = (c0, m0) :: rest)
    (hcodes : ∀ c ∈ ps.map Prod.fst, isArrayIndex c = false)
    (hdates : ∀ k ∈ m0.map Prod.fst, validDateKey k = true →
      isArrayIndex k = true)
    (hpop : ∀ k ∈ m0.map Prod.fst, validDateKey k = true →
      ∃ c ∈ knownCodes, (fetchVal ps c k).isSome = true) :
    (processApiResponse ps).length =
      ((m0.map Prod.fst).filter validDateKey).length ∧
    List.Sorted keyLe ((processApiResponse ps).map DailyWeatherData.date) ∧
    ∀ d ∈ processApiResponse ps,
      d.temperature = fetchVal ps "T2M" d.date ∧
      d.maxTemperature = fetchVal ps "T2M_MAX" d.date ∧
      d.minTemperature = fetchVal ps "T2M_MIN" d.date ∧
      d.precipitation = fetchVal ps "PRECTOTCORR" d.date ∧
      d.humidity = fetchVal ps "RH2M" d.date ∧
      d.windSpeed = fetchVal ps "WS10M" d.date ∧
      d.windDirection = fetchVal ps "WD10M" d.date ∧
      d.pressure = fetchVal ps "PS" d.date ∧
      d.cloudCover = fetchVal ps "CLOUD_AMT" d.date ∧
      d.solarRadiation = fetchVal ps "ALLSKY_SFC_SW_DWN" d.date ∧
      d.soilTemperature = assignField (fetchVal ps "T_SOIL" d.date)
        (fetchVal ps "TSOIL1" d.date) ∧
      d.deepSoilTemperature = fetchVal ps "TSOIL2" d.date ∧
      d.rootZoneMoisture = fetchVal ps "GWETROOT" d.date ∧
      d.topSoilMoisture = fetchVal ps "GWETTOP" d.date ∧
      d.evapotranspiration = fetchVal ps "EVLAND" d.date ∧
      d.parRadiation = fetchVal ps "ALLSKY_SFC_PAR_TOT" d.date ∧
      d.dewPoint = fetchVal ps "T2MDEW" d.date ∧
      d.wetBulbTemperature = fetchVal ps "T2MWET" d.date ∧
      d.soilMoisture = fetchVal ps "SOIL_M" d.date ∧
      d.growingDegreeDays = fetchVal ps "GDD10" d.date ∧
      d.maxHumidity = fetchVal ps "RH2M_HR" d.date := by
  subst hps
  have hkeys : objectKeys (((c0, m0) :: rest : Params).map Prod.fst) =
      c0 :: rest.map Prod.fst := by
    rw [objectKeys_id hcodes]
    rfl
  have hA : processApiResponse ((c0, m0) :: rest) =
      ((datesOf m0).map (buildDaily ((c0, m0) :: rest))).filter hasValidData := by
    unfold processApiResponse
    rw [hkeys]
    simp only [getParam_cons_self]
  have hval : ∀ d ∈ (datesOf m0).map (buildDaily ((c0, m0) :: rest)),
      hasValidData d = true := by
    intro d hd
    obtain ⟨k, hk, rfl⟩ := List.mem_map.mp hd
    obtain ⟨hkv, hkm⟩ := mem_datesOf hk
    obtain ⟨c, hc, hcs⟩ := hpop k hkm hkv
    exact hasValidData_of_code hc hcs
  have hB : processApiResponse ((c0, m0) :: rest) =
      (datesOf m0).map (buildDaily ((c0, m0) :: rest)) := by
    rw [hA]
    exact List.filter_eq_self.mpr hval
  refine ⟨?_, ?_, ?_⟩
  · rw [hB, List.length_map]
    exact (datesOf_perm m0).length_eq
  · rw [hB, List.map_map]
    have hid : (DailyWeatherData.date ∘ buildDaily ((c0, m0) :: rest)) = id := by
      funext k
      rfl
    rw [hid, List.map_id]
    exact sorted_datesOf hdates
  · intro d hd
    rw [hB] at hd
    obtain ⟨k, _, rfl⟩ := List.mem_map.mp hd
    refine ⟨?_, ?_, ?_, ?_, ?_, ?_, ?_, ?_, ?_, ?_, ?_, ?_, ?_, ?_, ?_, ?_,
      ?_, ?_, ?_, ?_, ?_⟩ <;>
      first
      | exact assignField_none _
      | (show assignField _ (assignField _ none) = _
         rw [assignField_none]
         rfl)

/-- The mock-style response used to witness C1: one parameter, a `units`
entry, two date keys inserted out of order. -/
def c1psW : Params :=
  [("T2M", [("units", 0), ("20220102", 16), ("20220101", 15)])]

/-- Witness for C1 amended on `c1psW`: two records, sorted by date key. -/
theorem C1_witness :
    (processApiResponse c1psW).length =
      ((([("units", (0 : ℚ)), ("20220102", 16), ("20220101", 15)] :
          ParamMap).map Prod.fst).filter validDateKey).length ∧
    List.Sorted keyLe ((processApiResponse c1psW).map DailyWeatherData.date) := by
  have h := C1_amendedNormalize c1psW "T2M"
    [("units", 0), ("20220102", 16), ("20220101", 15)] [] rfl
    (by decide) (by decide) (by decide)
  exact ⟨h.1, h.2.1⟩
